import Mathlib

set_option linter.unusedVariables false

/-!
Shallow embedding of the multimodal-mcp repository (TypeScript) in Lean 4,
with theorems settling the frozen claims about its specification.

Conventions used throughout:
- `Int` timestamps stand for `Date.now()` millisecond instants.
- `Rat` stands for JavaScript numbers where arithmetic matters
  (coordinates, radii, certainty scores).
- Fallible calls to external collaborators (the vector store, the
  geocoder, the Google auth exchange) are modelled by explicit
  environment values passed to the embedded function: `Option` for
  "may be absent", `Except` / an error field for "may throw".
  A thrown value is `Option String`: `some m` is an `Error` with
  message `m`, `none` a non-`Error` thrown value.
- Module-level mutable state (`client`, `lastTokenRefresh`, cached
  credentials) becomes explicit state passed in and returned.
-/

namespace MultimodalMCP

/-- A connection handle to the vector store (the value held in the
module-level `client` variable of `src/weaviate-client.ts`).  `id`
identifies the underlying object reference; `closed` records whether
`close()` has been called on that object. -/
structure Handle where
  id : Nat
  closed : Bool
deriving DecidableEq

/-- Module-level state of `src/weaviate-client.ts`: the cached `client`
(`none` while still `undefined`) and `lastTokenRefresh`. -/
structure ClientState where
  client : Option Handle
  lastTokenRefresh : Int
deriving DecidableEq

/-- `TOKEN_REFRESH_INTERVAL = 60 * 60 * 1000` from `src/weaviate-client.ts`. -/
def TOKEN_REFRESH_INTERVAL : Int := 60 * 60 * 1000

/-- `getWeaviateClient` from `src/weaviate-client.ts`.  `now` is `Date.now()`;
`fresh` models the handle produced by `googleGcloudAuth.reInstantiateWeaviate()`
(which obtains a fresh token) in case that call is made.  Returns the handle
given to the caller and the updated module state. -/
def getWeaviateClient (st : ClientState) (now : Int) (fresh : Handle) :
    Handle × ClientState :=
  match st.client with
  | none => (fresh, { client := some fresh, lastTokenRefresh := now })
  | some c =>
    if now - st.lastTokenRefresh > TOKEN_REFRESH_INTERVAL then
      (fresh, { client := some fresh, lastTokenRefresh := now })
    else
      (c, st)

/-- `closeWeaviateClient` from `src/weaviate-client.ts`: if a client is held,
call `close()` on that same object (marking it closed); the `client` variable
and `lastTokenRefresh` are not reassigned. -/
def closeWeaviateClient (st : ClientState) : ClientState :=
  match st.client with
  | none => st
  | some c => { st with client := some { c with closed := true } }

/-- A latitude/longitude pair. -/
structure Coordinates where
  latitude : Rat
  longitude : Rat
deriving DecidableEq

/-- `ImageFileInfo` from `src/utils.ts`: one image record produced by the
file-reader, as consumed by the ingestion pipeline. -/
structure ImageFileInfo where
  name : String
  path : String
  size : Nat
  extension : String
  base64 : String
  coordinates : Option Coordinates
deriving DecidableEq

/-- The `dataObject` built inside `uploadSingleImage` (upload-images module).
`coordinates = none` models the `coordinates` key being entirely absent from
the object literal (the source only assigns the key inside
`if (imageFile.coordinates)`), as opposed to present-but-null. -/
structure DataObject where
  title : String
  url : String
  extension : String
  image : String
  coordinates : Option Coordinates
deriving DecidableEq

/-- Construction of the `dataObject` from `uploadSingleImage` (upload-images
module, lines 45-62). -/
def dataObjectOf (f : ImageFileInfo) : DataObject :=
  { title := f.name
  , url := "https://files.hungcq.com/photos/" ++ f.name ++ f.extension
  , extension := f.extension
  , image := f.base64
  , coordinates := f.coordinates.map fun c =>
      { latitude := c.latitude, longitude := c.longitude } }

/-- One object held by the remote collection.  Objects inserted by this code
are `dataObject`s and never carry a `path` property; remote state may also
hold objects having a `path` property, which is what the existence check in
`uploadSingleImage` queries (`where: { path: { equal: imageFile.path } }`). -/
structure StoredObject where
  data : DataObject
  path : Option String
deriving DecidableEq

/-- The existence check `collection.query.fetchObjects({ where: { path:
{ equal: p } }, limit: 1 })`: objects whose `path` property equals `p`,
truncated to one result. -/
def fetchObjectsByPath (c : List StoredObject) (p : String) : List StoredObject :=
  (c.filter fun o => o.path == some p).take 1

/-- The `{ success, error? }` record returned by `uploadSingleImage`. -/
structure SingleResult where
  success : Bool
  error : Option String
deriving DecidableEq

/-- Environment for processing one item: whether the existence check throws
and whether the insert throws (`some e` = that call throws the value `e`). -/
structure ItemEnv where
  queryErr : Option (Option String)
  insertErr : Option (Option String)
deriving DecidableEq

/-- `error instanceof Error ? error.message : 'Unknown error'`. -/
def errMessage (e : Option String) : String := e.getD "Unknown error"

/-- `uploadSingleImage` (upload-images module, lines 23-71): inside one
`try`, optionally run the existence check (returning the sentinel
`'Image already exists'` result when a matching object is found), else build
the `dataObject` and insert it; any error thrown by either call is caught
and returned as `{ success: false, error: message | 'Unknown error' }`.
Returns the result record and the collection state after the call. -/
def uploadSingleImage (c : List StoredObject) (f : ImageFileInfo)
    (skipExisting : Bool) (env : ItemEnv) : SingleResult × List StoredObject :=
  if skipExisting then
    match env.queryErr with
    | some e => ({ success := false, error := some (errMessage e) }, c)
    | none =>
      if 0 < (fetchObjectsByPath c f.path).length then
        ({ success := false, error := some "Image already exists" }, c)
      else
        match env.insertErr with
        | some e => ({ success := false, error := some (errMessage e) }, c)
        | none =>
          ({ success := true, error := none },
           c ++ [{ data := dataObjectOf f, path := none }])
  else
    match env.insertErr with
    | some e => ({ success := false, error := some (errMessage e) }, c)
    | none =>
      ({ success := true, error := none },
       c ++ [{ data := dataObjectOf f, path := none }])

/-- The running `UploadResult` accumulator of the upload-images module. -/
structure UploadResult where
  success : Nat
  failed : Nat
  skipped : Nat
  errors : List String
deriving DecidableEq

/-- Body of the `for (const image of images)` loop in `uploadBatch`
(upload-images module, lines 88-105): classify the single-image result as
success / skipped (on the exact sentinel string) / failed, pushing the
failure message `name + extension + ": " + error` in the failed case. -/
def uploadBatchStep (skipExisting : Bool) (acc : UploadResult × List StoredObject)
    (p : ImageFileInfo × ItemEnv) : UploadResult × List StoredObject :=
  let r := uploadSingleImage acc.2 p.1 skipExisting p.2
  if r.1.success then
    ({ acc.1 with success := acc.1.success + 1 }, r.2)
  else if r.1.error = some "Image already exists" then
    ({ acc.1 with skipped := acc.1.skipped + 1 }, r.2)
  else
    ({ acc.1 with
        failed := acc.1.failed + 1,
        errors := acc.1.errors ++
          [p.1.name ++ p.1.extension ++ ": " ++ r.1.error.getD "undefined"] }, r.2)

/-- `uploadBatch` (upload-images module, lines 76-108): fold the loop body
over the batch starting from a zero result. -/
def uploadBatch (c : List StoredObject) (images : List (ImageFileInfo × ItemEnv))
    (skipExisting : Bool) : UploadResult × List StoredObject :=
  images.foldl (uploadBatchStep skipExisting)
    ({ success := 0, failed := 0, skipped := 0, errors := [] }, c)

/-- Fuel-indexed form of the batching loop
`for (let i = 0; i < len; i += batchSize) slice(i, i + batchSize)`:
for `1 ≤ n` each step takes `(x :: xs).take n` and recurses on
`(x :: xs).drop n`.  Fuel `l.length` always suffices because every
iteration consumes at least one element. -/
def chunksOfFuel {α : Type} (fuel n : Nat) (l : List α) : List (List α) :=
  match fuel, l with
  | 0, _ => []
  | _ + 1, [] => []
  | fuel + 1, x :: xs => (x :: xs.take (n - 1)) :: chunksOfFuel fuel n (xs.drop (n - 1))

/-- Contiguous batches of size `n` (last one may be shorter). -/
def chunksOf {α : Type} (n : Nat) (l : List α) : List (List α) :=
  chunksOfFuel l.length n l

/-- Body of the batch loop in `uploadImages` (lines 145-155): run
`uploadBatch` on the batch and add its counts and error list into
`totalResult`. -/
def uploadTotalsStep (skipExisting : Bool) (acc : UploadResult × List StoredObject)
    (batch : List (ImageFileInfo × ItemEnv)) : UploadResult × List StoredObject :=
  let r := uploadBatch acc.2 batch skipExisting
  ({ success := acc.1.success + r.1.success
   , failed := acc.1.failed + r.1.failed
   , skipped := acc.1.skipped + r.1.skipped
   , errors := acc.1.errors ++ r.1.errors }, r.2)

/-- `uploadImages` (upload-images module, lines 111-158): early return with
the `'No image files found'` report on an empty record list, otherwise fold
`uploadBatch` over the size-`batchSize` chunks, summing the per-batch counts
and concatenating the per-batch error lists into `totalResult`. -/
def uploadImages (imageFiles : List (ImageFileInfo × ItemEnv)) (batchSize : Nat)
    (skipExisting : Bool) (c : List StoredObject) :
    UploadResult × List StoredObject :=
  if imageFiles.length = 0 then
    ({ success := 0, failed := 0, skipped := 0, errors := ["No image files found"] }, c)
  else
    (chunksOf batchSize imageFiles).foldl (uploadTotalsStep skipExisting)
      ({ success := 0, failed := 0, skipped := 0, errors := [] }, c)

/-- `TOKEN_EXPIRY_TIME = 30 * 60 * 1000` from `src/google-service-auth.ts`. -/
def TOKEN_EXPIRY_TIME : Int := 30 * 60 * 1000

namespace ServiceAuth

/-- The subset of `google-auth-library`'s `Credentials` read by
`src/google-service-auth.ts`. -/
structure Credentials where
  access_token : Option String
  expiry_date : Option Int
deriving DecidableEq

/-- Private state of the `GoogleGcloudAuth` class in
`src/google-service-auth.ts`: `credentials` and `tokenExpiry`. -/
structure AuthState where
  credentials : Option Credentials
  tokenExpiry : Int
deriving DecidableEq

/-- One response of the external authentication exchange
(`googleAuth.getClient()` / `client.getAccessToken()`):
`token` is `tokenResponse.token` (`none` when absent, which makes
`refreshToken` throw), `credentialsInfo` the credentials object read off the
client, and `raised` models the exchange itself throwing. -/
structure RefreshEnv where
  raised : Option (Option String)
  token : Option String
  credentialsInfo : Option Credentials
deriving DecidableEq

/-- The `expiryTime` computation in `refreshToken`:
`credentialsInfo?.expiry_date ? credentialsInfo.expiry_date : Date.now() +
TOKEN_EXPIRY_TIME` (note JavaScript truthiness: an `expiry_date` of `0`
falls back to the default). -/
def expiryOf (ci : Option Credentials) (now : Int) : Int :=
  match ci with
  | some c =>
    match c.expiry_date with
    | some e => if e = 0 then now + TOKEN_EXPIRY_TIME else e
    | none => now + TOKEN_EXPIRY_TIME
  | none => now + TOKEN_EXPIRY_TIME

/-- `refreshToken` from `src/google-service-auth.ts` (lines 41-67): perform
the exchange, throw if it raised or yielded no token, otherwise replace the
held credentials, set `tokenExpiry`, and return the fresh token. -/
def refreshToken (st : AuthState) (env : RefreshEnv) (now : Int) :
    Except (Option String) (String × AuthState) :=
  match env.raised with
  | some e => .error e
  | none =>
    match env.token with
    | none => .error (some "Failed to get access token from service account")
    | some t =>
      .ok (t, { credentials := env.credentialsInfo
              , tokenExpiry := expiryOf env.credentialsInfo now })

/-- `getValidToken` from `src/google-service-auth.ts` (lines 73-81): if the
held credentials carry a (truthy) `access_token` and `tokenExpiry > now +
5 * 60 * 1000`, return that token with no state change; otherwise delegate to
`refreshToken`. -/
def getValidToken (st : AuthState) (env : RefreshEnv) (now : Int) :
    Except (Option String) (String × AuthState) :=
  match st.credentials with
  | some c =>
    match c.access_token with
    | some tok =>
      if tok ≠ "" ∧ st.tokenExpiry > now + 5 * 60 * 1000 then
        .ok (tok, st)
      else
        refreshToken st env now
    | none => refreshToken st env now
  | none => refreshToken st env now

end ServiceAuth

namespace GcloudAuth

/-- Private state of the CLI-delegated `GoogleGcloudAuth` variant
(google-service-auth, gcloud flavour): `token` and `tokenExpiry`. -/
structure AuthState where
  token : Option String
  tokenExpiry : Int
deriving DecidableEq

/-- One response of `gcloud auth print-access-token`: either the process
errors (or prints to stderr), or it prints the token on stdout (already
trimmed here). -/
structure RefreshEnv where
  raised : Option (Option String)
  stdout : String
deriving DecidableEq

/-- `refreshToken` of the gcloud variant: run the CLI, throw on error,
otherwise cache the trimmed stdout as the token and stamp
`tokenExpiry = Date.now() + 60 * 60 * 1000`. -/
def refreshToken (st : AuthState) (env : RefreshEnv) (now : Int) :
    Except (Option String) (String × AuthState) :=
  match env.raised with
  | some e => .error e
  | none =>
    .ok (env.stdout, { token := some env.stdout
                     , tokenExpiry := now + 60 * 60 * 1000 })

/-- `getValidToken` of the gcloud variant (lines 37-45): identical 5-minute
margin guard over the cached token. -/
def getValidToken (st : AuthState) (env : RefreshEnv) (now : Int) :
    Except (Option String) (String × AuthState) :=
  match st.token with
  | some tok =>
    if tok ≠ "" ∧ st.tokenExpiry > now + 5 * 60 * 1000 then
      .ok (tok, st)
    else
      refreshToken st env now
  | none => refreshToken st env now

end GcloudAuth

/-- The geographic filter built by
`collection.filter.byProperty('coordinates').withinGeoRange({...})`:
a center and a `distance` in meters. -/
structure GeoFilter where
  latitude : Rat
  longitude : Rat
  distance : Rat
deriving DecidableEq

/-- A `nearText` query as issued by `searchImages`
(`src/search-images.ts` lines 88-110): the query text, `limit`, the
`certainty` threshold, and the optional geographic filter.  The projected
properties and metadata are fixed in both branches of the source and are
reflected in `RawObject`. -/
structure NearTextQuery where
  query : String
  limit : Nat
  certainty : Rat
  filters : Option GeoFilter
deriving DecidableEq

/-- One object of a `nearText` response, with the projected properties
`title, url, extension, coordinates` and the `certainty` metadata. -/
structure RawObject where
  title : String
  url : String
  extension : String
  coordinates : Option Coordinates
  certainty : Option Rat
deriving DecidableEq

/-- The `SearchResult` record of `src/search-images.ts`. -/
structure SearchResult where
  title : String
  url : String
  extension : String
  coordinates : Option Coordinates
  score : Option Rat
deriving DecidableEq

/-- Observable outcome of one `searchImages` call: the value returned (or
the error rethrown), the `nearText` query that was issued to the collection,
and the warnings logged by `searchImages` itself. -/
structure SearchCall where
  result : Except (Option String) (List SearchResult)
  issued : NearTextQuery
  warnings : List String

/-- `searchImages` from `src/search-images.ts` (lines 70-123).  `geo` is the
value returned by the `geocodeLocation` collaborator (which returns `null`
both on a geocoding miss and on a geocoding error, never throwing), consulted
only when `location` is provided.  `backend` is the vector store's response
to the issued `nearText` query.  `limit` and `radiusKm` are the
already-defaulted option values. -/
def searchImages (query : String) (limit : Nat) (location : Option String)
    (radiusKm : Rat) (geo : Option (Rat × Rat))
    (backend : NearTextQuery → Except (Option String) (List RawObject)) :
    SearchCall :=
  let locationCoords : Option (Rat × Rat) :=
    match location with
    | some _ => geo
    | none => none
  let warnings : List String :=
    match location, geo with
    | some l, none =>
      ["Could not geocode location \"" ++ l ++ "\", proceeding without location filter"]
    | _, _ => []
  let q : NearTextQuery :=
    match locationCoords with
    | some (la, lo) =>
      { query := query, limit := limit, certainty := 1/2
      , filters := some { latitude := la, longitude := lo, distance := radiusKm * 1000 } }
    | none =>
      { query := query, limit := limit, certainty := 1/2, filters := none }
  match backend q with
  | .ok objs =>
    { result := .ok (objs.map fun o =>
        { title := o.title, url := o.url, extension := o.extension
        , coordinates := o.coordinates, score := o.certainty })
    , issued := q, warnings := warnings }
  | .error e => { result := .error e, issued := q, warnings := warnings }

/-- Modelled from the documented semantics of the vector store collaborator
(Weaviate `query.nearText`), which is external to this repository: the store
holds objects together with their certainty for the given query; the response
keeps only objects meeting the `certainty` threshold (and, when a geographic
filter is present, objects within range according to `inRange`), truncated to
`limit`. -/
def nearTextBackend (inRange : GeoFilter → Option Coordinates → Bool)
    (store : List RawObject) (q : NearTextQuery) :
    Except (Option String) (List RawObject) :=
  .ok (((store.filter fun o =>
          match o.certainty with
          | some c => decide (q.certainty ≤ c)
          | none => false).filter fun o =>
          match q.filters with
          | some gf => inRange gf o.coordinates
          | none => true).take q.limit)

/-- One content block of a `CallToolResult`. -/
structure ToolContent where
  type : String
  text : String
deriving DecidableEq

/-- The `CallToolResult` shape produced by `handleSearchPhotoAlbums`:
`isError = none` models the key being absent. -/
structure ToolResult where
  content : List ToolContent
  isError : Option Bool
deriving DecidableEq

/-- Decimal rendering standing in for JavaScript's `Number.toFixed(dp)`
(round half away handled as round-half-up; exact JS binary-float rounding is
outside this embedding and decides no claim). -/
def ratToFixed (dp : Nat) (x : Rat) : String :=
  let m : Int := round (x * (10 : Rat) ^ dp)
  let sign := if m < 0 then "-" else ""
  let a := m.natAbs
  let fs := toString (a % 10 ^ dp)
  sign ++ toString (a / 10 ^ dp) ++ "." ++
    String.mk (List.replicate (dp - fs.length) '0') ++ fs

/-- The per-result entry built in `handleSearchPhotoAlbums` (tool-definitions
module): numbered title, URL line, GPS line (or the no-GPS line), and the
similarity line when a score is present. -/
def formatEntry (i : Nat) (r : SearchResult) : String :=
  let coordInfo :=
    match r.coordinates with
    | some c => "📍 Location: " ++ ratToFixed 6 c.latitude ++ ", " ++ ratToFixed 6 c.longitude
    | none => "📍 Location: No GPS data available"
  let similarityInfo :=
    match r.score with
    | some s => "🎯 Similarity: " ++ ratToFixed 1 (s * 100) ++ "%"
    | none => ""
  toString (i + 1) ++ ". **" ++ r.title ++ r.extension ++ "**\n   🔗 URL: " ++
    r.url ++ "\n   " ++ coordInfo ++ "\n   " ++ similarityInfo

/-- The summary text for a non-empty result list. -/
def formatSummary (query : String) (results : List SearchResult) : String :=
  "Found " ++ toString results.length ++ " photo(s) matching \"" ++ query ++
    "\":\n\n" ++
    String.intercalate "\n\n" (results.enum.map fun p => formatEntry p.1 p.2)

/-- `handleSearchPhotoAlbums` from the tool-definitions module (the shared
`search_photo_albums` handler).  `searchOutcome` is the outcome of the
awaited `searchImages` call: `.error e` models that call throwing `e`.  The
whole body sits in one `try/catch`, so the handler always returns a
`ToolResult` and never throws across the protocol boundary — modelled by
this being a total function. -/
def handleSearchPhotoAlbums (query : String)
    (searchOutcome : Except (Option String) (List SearchResult)) : ToolResult :=
  match searchOutcome with
  | .error e =>
    { content := [{ type := "text"
                  , text := "Error searching photo albums: " ++ errMessage e ++
                      ". Please check your Weaviate connection and try again." }]
    , isError := some true }
  | .ok results =>
    if results.length = 0 then
      { content := [{ type := "text"
                    , text := "No photos found matching \"" ++ query ++
                        "\". Try a different search term or check if photos have been uploaded to the collection." }]
      , isError := none }
    else
      { content := [{ type := "text", text := formatSummary query results }]
      , isError := none }

/-! ## Theorems -/

/-- Each iteration of the `uploadBatch` loop classifies its item into exactly
one of the three counters. -/
theorem uploadBatchStep_counts (skipExisting : Bool)
    (acc : UploadResult × List StoredObject) (p : ImageFileInfo × ItemEnv) :
    (uploadBatchStep skipExisting acc p).1.success
      + (uploadBatchStep skipExisting acc p).1.failed
      + (uploadBatchStep skipExisting acc p).1.skipped
    = acc.1.success + acc.1.failed + acc.1.skipped + 1 := by
  unfold uploadBatchStep
  dsimp only
  split
  · simp
    omega
  · split
    · simp
      omega
    · simp
      omega

/-- Folding the batch loop adds exactly the batch length to the counter sum. -/
theorem uploadBatch_foldl_counts (skipExisting : Bool) :
    ∀ (images : List (ImageFileInfo × ItemEnv)) (acc : UploadResult × List StoredObject),
    ((images.foldl (uploadBatchStep skipExisting) acc).1.success
      + (images.foldl (uploadBatchStep skipExisting) acc).1.failed
      + (images.foldl (uploadBatchStep skipExisting) acc).1.skipped)
    = acc.1.success + acc.1.failed + acc.1.skipped + images.length
  | [], acc => by simp
  | p :: rest, acc => by
    simp only [List.foldl_cons, List.length_cons]
    rw [uploadBatch_foldl_counts skipExisting rest (uploadBatchStep skipExisting acc p)]
    rw [uploadBatchStep_counts]
    omega

/-- `uploadBatch` accounts for every image of the batch exactly once. -/
theorem uploadBatch_counts (c : List StoredObject)
    (images : List (ImageFileInfo × ItemEnv)) (skipExisting : Bool) :
    (uploadBatch c images skipExisting).1.success
      + (uploadBatch c images skipExisting).1.failed
      + (uploadBatch c images skipExisting).1.skipped
    = images.length := by
  unfold uploadBatch
  rw [uploadBatch_foldl_counts]
  simp

/-- With enough fuel, the chunks of a list partition it without loss. -/
theorem chunksOfFuel_length_sum {α : Type} (n : Nat) :
    ∀ (fuel : Nat) (l : List α), l.length ≤ fuel →
    ((chunksOfFuel fuel n l).map List.length).sum = l.length
  | 0, l, h => by
    have hl : l = [] := List.length_eq_zero.mp (Nat.le_zero.mp h)
    subst hl
    simp [chunksOfFuel]
  | fuel + 1, [], h => by simp [chunksOfFuel]
  | fuel + 1, x :: xs, h => by
    simp only [chunksOfFuel, List.map_cons, List.sum_cons]
    rw [chunksOfFuel_length_sum n fuel (xs.drop (n - 1))
      (by simp only [List.length_drop]; simp at h; omega)]
    simp only [List.length_cons, List.length_take, List.length_drop]
    simp at h
    omega

/-- Folding the per-batch totals adds exactly the summed batch lengths. -/
theorem uploadTotals_foldl_counts (skipExisting : Bool) :
    ∀ (batches : List (List (ImageFileInfo × ItemEnv)))
      (acc : UploadResult × List StoredObject),
    ((batches.foldl (uploadTotalsStep skipExisting) acc).1.success
      + (batches.foldl (uploadTotalsStep skipExisting) acc).1.failed
      + (batches.foldl (uploadTotalsStep skipExisting) acc).1.skipped)
    = acc.1.success + acc.1.failed + acc.1.skipped + (batches.map List.length).sum
  | [], acc => by simp
  | b :: rest, acc => by
    simp only [List.foldl_cons, List.map_cons, List.sum_cons]
    rw [uploadTotals_foldl_counts skipExisting rest (uploadTotalsStep skipExisting acc b)]
    have hb := uploadBatch_counts acc.2 b skipExisting
    simp only [uploadTotalsStep]
    omega

/-- C1: for every ingestion run over any sequence of image records (with a
positive batch size, as the CLI guarantees), the returned report satisfies
`success + failed + skipped = number of records`: each record contributes
exactly one outcome and per-batch counts are summed without loss. -/
theorem uploadImages_counts (imageFiles : List (ImageFileInfo × ItemEnv))
    (batchSize : Nat) (skipExisting : Bool) (c : List StoredObject)
    (h : 1 ≤ batchSize) :
    (uploadImages imageFiles batchSize skipExisting c).1.success
      + (uploadImages imageFiles batchSize skipExisting c).1.failed
      + (uploadImages imageFiles batchSize skipExisting c).1.skipped
    = imageFiles.length := by
  unfold uploadImages
  split
  · simp_all
  · rw [uploadTotals_foldl_counts]
    unfold chunksOf
    rw [chunksOfFuel_length_sum batchSize imageFiles.length imageFiles le_rfl]
    simp

/-- Witness for C1 at a concrete two-record run (one insert succeeds, one
insert throws): both hypothesis and conclusion evaluate. -/
theorem uploadImages_counts_witness :
    1 ≤ 1 ∧
    (uploadImages
        [ (⟨"a", "/photos/a.jpg", 10, ".jpg", "QUJD", none⟩, ⟨none, none⟩)
        , (⟨"b", "/photos/b.png", 20, ".png", "REVG", none⟩, ⟨none, some (some "boom")⟩) ]
        1 true []).1.success
      + (uploadImages
        [ (⟨"a", "/photos/a.jpg", 10, ".jpg", "QUJD", none⟩, ⟨none, none⟩)
        , (⟨"b", "/photos/b.png", 20, ".png", "REVG", none⟩, ⟨none, some (some "boom")⟩) ]
        1 true []).1.failed
      + (uploadImages
        [ (⟨"a", "/photos/a.jpg", 10, ".jpg", "QUJD", none⟩, ⟨none, none⟩)
        , (⟨"b", "/photos/b.png", 20, ".png", "REVG", none⟩, ⟨none, some (some "boom")⟩) ]
        1 true []).1.skipped
    = [ (⟨"a", "/photos/a.jpg", 10, ".jpg", "QUJD", none⟩, ⟨none, none⟩)
      , ((⟨"b", "/photos/b.png", 20, ".png", "REVG", none⟩ : ImageFileInfo),
         (⟨none, some (some "boom")⟩ : ItemEnv)) ].length :=
  ⟨Nat.le_refl 1,
   uploadImages_counts
     [ (⟨"a", "/photos/a.jpg", 10, ".jpg", "QUJD", none⟩, ⟨none, none⟩)
     , (⟨"b", "/photos/b.png", 20, ".png", "REVG", none⟩, ⟨none, some (some "boom")⟩) ]
     1 true [] (Nat.le_refl 1)⟩

/-- The existence check finds something exactly when some stored object's
`path` property equals the probed path. -/
theorem fetchObjectsByPath_pos_iff (c : List StoredObject) (p : String) :
    0 < (fetchObjectsByPath c p).length ↔ ∃ o ∈ c, o.path = some p := by
  unfold fetchObjectsByPath
  rw [List.length_take, Nat.lt_min]
  simp [List.length_pos, List.filter_eq_nil_iff]

/-- C2: with `skipExisting` enabled, an item is checked by querying the
collection for an object whose `path` property equals the item's filesystem
path; when found the outcome is the skip sentinel counted as `skipped` and
the collection is left unchanged (no insert), while a record with the same
bytes but a path matching no stored object is inserted — path, not content,
is the dedup identity. -/
theorem skipExisting_path_identity (acc : UploadResult) (c : List StoredObject)
    (f g : ImageFileInfo) (env env' : ItemEnv)
    (hq : env.queryErr = none) (hq' : env'.queryErr = none)
    (hi' : env'.insertErr = none)
    (hfound : ∃ o ∈ c, o.path = some f.path)
    (hbytes : g.base64 = f.base64)
    (hnew : ∀ o ∈ c, o.path ≠ some g.path) :
    uploadSingleImage c f true env
      = ({ success := false, error := some "Image already exists" }, c)
    ∧ uploadBatchStep true (acc, c) (f, env)
      = ({ acc with skipped := acc.skipped + 1 }, c)
    ∧ uploadSingleImage c g true env'
      = ({ success := true, error := none },
         c ++ [{ data := dataObjectOf g, path := none }]) := by
  have hf : 0 < (fetchObjectsByPath c f.path).length :=
    (fetchObjectsByPath_pos_iff c f.path).mpr hfound
  have hg : ¬ 0 < (fetchObjectsByPath c g.path).length := by
    rw [fetchObjectsByPath_pos_iff]
    push_neg
    exact hnew
  have h1 : uploadSingleImage c f true env
      = ({ success := false, error := some "Image already exists" }, c) := by
    unfold uploadSingleImage
    rw [hq]
    simp [hf]
  refine ⟨h1, ?_, ?_⟩
  · unfold uploadBatchStep
    dsimp only
    rw [h1]
    simp
  · unfold uploadSingleImage
    rw [hq', hi']
    simp [hg]

/-- Witness for C2: a collection holding one object whose `path` property is
`/photos/a.jpg`; the record at that path is skipped without insertion, and a
byte-identical record at `/other/a.jpg` is inserted. -/
theorem skipExisting_path_identity_witness :
    uploadSingleImage
        [{ data := ⟨"x", "u", ".jpg", "QUJD", none⟩, path := some "/photos/a.jpg" }]
        ⟨"a", "/photos/a.jpg", 3, ".jpg", "QUJD", none⟩ true ⟨none, none⟩
      = ({ success := false, error := some "Image already exists" },
         [{ data := ⟨"x", "u", ".jpg", "QUJD", none⟩, path := some "/photos/a.jpg" }])
    ∧ uploadBatchStep true (⟨0, 0, 0, []⟩,
        [{ data := ⟨"x", "u", ".jpg", "QUJD", none⟩, path := some "/photos/a.jpg" }])
        (⟨"a", "/photos/a.jpg", 3, ".jpg", "QUJD", none⟩, ⟨none, none⟩)
      = ({ success := 0, failed := 0, skipped := 1, errors := [] },
         [{ data := ⟨"x", "u", ".jpg", "QUJD", none⟩, path := some "/photos/a.jpg" }])
    ∧ uploadSingleImage
        [{ data := ⟨"x", "u", ".jpg", "QUJD", none⟩, path := some "/photos/a.jpg" }]
        ⟨"a", "/other/a.jpg", 3, ".jpg", "QUJD", none⟩ true ⟨none, none⟩
      = ({ success := true, error := none },
         [{ data := ⟨"x", "u", ".jpg", "QUJD", none⟩, path := some "/photos/a.jpg" },
          { data := dataObjectOf ⟨"a", "/other/a.jpg", 3, ".jpg", "QUJD", none⟩, path := none }]) :=
  skipExisting_path_identity ⟨0, 0, 0, []⟩
    [{ data := ⟨"x", "u", ".jpg", "QUJD", none⟩, path := some "/photos/a.jpg" }]
    ⟨"a", "/photos/a.jpg", 3, ".jpg", "QUJD", none⟩
    ⟨"a", "/other/a.jpg", 3, ".jpg", "QUJD", none⟩
    ⟨none, none⟩ ⟨none, none⟩ rfl rfl rfl
    (by decide) rfl (by decide)

/-- C3 counterexample: with no cached credential and the authentication
exchange reporting an `expiry_date` 1 ms in the future, `getValidToken`
returns that token although its remaining validity (1 ms) is far below the
5-minute safety margin. -/
theorem getValidToken_margin_counterexample :
    ServiceAuth.getValidToken ⟨none, 0⟩ ⟨none, some "t", some ⟨some "t", some 1⟩⟩ 0
      = .ok ("t", ⟨some ⟨some "t", some 1⟩, 1⟩)
    ∧ ¬ ((1 : Int) - 0 > 5 * 60 * 1000) := by
  exact ⟨rfl, by decide⟩

/-- C3 (amended): the margin holds for every cached return — when the held
credential has a (truthy) access token and its recorded expiry exceeds
`now + 5 min`, the call returns exactly that token with no refresh and no
state change, so any two calls made within the margin return the identical
token; in the CLI-delegated variant even refreshed tokens satisfy the margin
because its refresh stamps `now + 60 min`. -/
theorem getValidToken_cached_margin (st : ServiceAuth.AuthState)
    (cr : ServiceAuth.Credentials) (t : String)
    (env env' : ServiceAuth.RefreshEnv) (now now' : Int)
    (hc : st.credentials = some cr) (ht : cr.access_token = some t) (hne : t ≠ "")
    (hm : st.tokenExpiry > now + 5 * 60 * 1000)
    (hm' : st.tokenExpiry > now' + 5 * 60 * 1000) :
    ServiceAuth.getValidToken st env now = .ok (t, st)
    ∧ ServiceAuth.getValidToken st env' now' = .ok (t, st)
    ∧ (∀ (gst : GcloudAuth.AuthState) (genv : GcloudAuth.RefreshEnv)
         (gnow : Int) (gt : String) (gst' : GcloudAuth.AuthState),
         GcloudAuth.getValidToken gst genv gnow = .ok (gt, gst') →
         gst'.tokenExpiry > gnow + 5 * 60 * 1000) := by
  refine ⟨?_, ?_, ?_⟩
  · simp [ServiceAuth.getValidToken, hc, ht, hne, hm]
    intro h
    omega
  · simp [ServiceAuth.getValidToken, hc, ht, hne, hm']
    intro h
    omega
  · intro gst genv gnow gt gst' hok
    obtain ⟨gtok, gexp⟩ := gst
    cases gtok with
    | none =>
      unfold GcloudAuth.getValidToken GcloudAuth.refreshToken at hok
      cases hr : genv.raised with
      | some e => rw [hr] at hok; simp at hok
      | none =>
        rw [hr] at hok
        simp only [Except.ok.injEq, Prod.mk.injEq] at hok
        rw [← hok.2]
        dsimp only
        omega
    | some tok =>
      unfold GcloudAuth.getValidToken GcloudAuth.refreshToken at hok
      dsimp only at hok
      split at hok
      · rename_i hcond
        simp only [Except.ok.injEq, Prod.mk.injEq] at hok
        rw [← hok.2]
        exact hcond.2
      · cases hr : genv.raised with
        | some e => rw [hr] at hok; simp at hok
        | none =>
          rw [hr] at hok
          simp only [Except.ok.injEq, Prod.mk.injEq] at hok
          rw [← hok.2]
          dsimp only
          omega

/-- Witness for C3 (amended): a concrete cached credential 10 minutes from
expiry is returned unchanged by two calls 1 ms apart. -/
theorem getValidToken_cached_margin_witness :
    ServiceAuth.getValidToken ⟨some ⟨some "tok", some 600000⟩, 600000⟩
        ⟨none, none, none⟩ 0
      = .ok ("tok", ⟨some ⟨some "tok", some 600000⟩, 600000⟩)
    ∧ ServiceAuth.getValidToken ⟨some ⟨some "tok", some 600000⟩, 600000⟩
        ⟨none, none, none⟩ 1
      = .ok ("tok", ⟨some ⟨some "tok", some 600000⟩, 600000⟩) := by
  have h := getValidToken_cached_margin ⟨some ⟨some "tok", some 600000⟩, 600000⟩
    ⟨some "tok", some 600000⟩ "tok" ⟨none, none, none⟩ ⟨none, none, none⟩ 0 1
    rfl rfl (by decide) (by decide) (by decide)
  exact ⟨h.1, h.2.1⟩

/-- C4: the connection handle is rebuilt (recording the build instant)
exactly when no handle exists yet or strictly more than 60 minutes have
elapsed since the last build; otherwise the held handle is returned with the
state unchanged. -/
theorem getWeaviateClient_rebuild_iff (st : ClientState) (now : Int) (fresh : Handle) :
    getWeaviateClient st now fresh =
      if st.client = none ∨ now - st.lastTokenRefresh > TOKEN_REFRESH_INTERVAL then
        (fresh, { client := some fresh, lastTokenRefresh := now })
      else
        (st.client.getD fresh, st) := by
  unfold getWeaviateClient
  cases h : st.client with
  | none => simp [h]
  | some c =>
    simp only [h, Option.getD_some]
    split
    · rw [if_pos (Or.inr ‹_›)]
    · rw [if_neg (by simp_all)]

/-- C8: the `dataObject` built for insertion omits the `coordinates` key
entirely when the source record has none, and copies the latitude/longitude
pair when present. -/
theorem dataObject_coordinates (f : ImageFileInfo) :
    (f.coordinates = none → (dataObjectOf f).coordinates = none)
    ∧ (∀ c, f.coordinates = some c →
        (dataObjectOf f).coordinates
          = some { latitude := c.latitude, longitude := c.longitude }) := by
  constructor
  · intro h
    simp [dataObjectOf, h]
  · intro cc h
    simp [dataObjectOf, h]

/-- Witness for C8: one record without coordinates, one with `(1, 2)`. -/
theorem dataObject_coordinates_witness :
    (dataObjectOf ⟨"a", "/a", 1, ".jpg", "QQ==", none⟩).coordinates = none
    ∧ (dataObjectOf ⟨"b", "/b", 1, ".jpg", "QQ==", some ⟨1, 2⟩⟩).coordinates
        = some ⟨1, 2⟩ :=
  ⟨(dataObject_coordinates ⟨"a", "/a", 1, ".jpg", "QQ==", none⟩).1 rfl,
   (dataObject_coordinates ⟨"b", "/b", 1, ".jpg", "QQ==", some ⟨1, 2⟩⟩).2 ⟨1, 2⟩ rfl⟩

/-- C10: `closeWeaviateClient` keeps `lastTokenRefresh` and the cached handle
reference unchanged (it only marks the held handle closed, and is a no-op
when none is held), so a subsequent `getWeaviateClient` call within 60
minutes of the last build returns the same, now-closed handle without
rebuilding. -/
theorem closeWeaviateClient_frame (st : ClientState) :
    (closeWeaviateClient st).lastTokenRefresh = st.lastTokenRefresh
    ∧ (closeWeaviateClient st).client.map Handle.id = st.client.map Handle.id
    ∧ (st.client = none → closeWeaviateClient st = st)
    ∧ (∀ (c : Handle) (now : Int) (fresh : Handle), st.client = some c →
        ¬ (now - st.lastTokenRefresh > TOKEN_REFRESH_INTERVAL) →
        getWeaviateClient (closeWeaviateClient st) now fresh
          = (⟨c.id, true⟩, closeWeaviateClient st)) := by
  refine ⟨?_, ?_, ?_, ?_⟩
  · unfold closeWeaviateClient
    cases h : st.client <;> simp [h]
  · unfold closeWeaviateClient
    cases h : st.client <;> simp [h]
  · intro h
    unfold closeWeaviateClient
    rw [h]
  · intro c now fresh hc hlt
    unfold closeWeaviateClient getWeaviateClient
    rw [hc]
    simp [hlt]

/-- Witness for C10: closing a held handle then asking for a client 100 ms
later returns the same handle, closed, without a rebuild. -/
theorem closeWeaviateClient_frame_witness :
    getWeaviateClient (closeWeaviateClient ⟨some ⟨5, false⟩, 100⟩) 200 ⟨9, false⟩
      = (⟨5, true⟩, closeWeaviateClient ⟨some ⟨5, false⟩, 100⟩) :=
  (closeWeaviateClient_frame ⟨some ⟨5, false⟩, 100⟩).2.2.2 ⟨5, false⟩ 200 ⟨9, false⟩
    rfl (by decide)

/-- C5 counterexample: an insert that throws an `Error` whose message is
exactly `'Image already exists'` is counted as skipped, not failed, and no
failure message of the form `<name><extension>: <reason>` is recorded —
the sentinel string doubles as the skip marker. -/
theorem item_error_sentinel_counterexample :
    uploadBatch []
        [(⟨"a", "/photos/a.jpg", 3, ".jpg", "QUJD", none⟩,
          ⟨none, some (some "Image already exists")⟩)] false
      = ({ success := 0, failed := 0, skipped := 1, errors := [] }, []) := by
  rfl

/-- C5 (amended): any error raised by the item's existence check or insert
is caught at the item level (the loop body returns normally, so the batch
and the run continue with the next item) and, provided its message is not
exactly the sentinel `'Image already exists'` (such errors are counted as
skipped instead), the item is recorded as Failed with the message
`<name><extension>: <reason>`, where reason is the underlying error's
message or `'Unknown error'` when no message is available. -/
theorem item_error_recorded_failed (acc : UploadResult) (c : List StoredObject)
    (f : ImageFileInfo) (env : ItemEnv) (skip : Bool) (e : Option String)
    (hraise : (skip = true ∧ env.queryErr = some e)
      ∨ (env.insertErr = some e ∧
         (skip = false ∨ (env.queryErr = none ∧ ∀ o ∈ c, o.path ≠ some f.path))))
    (hmsg : errMessage e ≠ "Image already exists") :
    uploadSingleImage c f skip env
      = ({ success := false, error := some (errMessage e) }, c)
    ∧ uploadBatchStep skip (acc, c) (f, env)
      = ({ acc with
            failed := acc.failed + 1,
            errors := acc.errors ++ [f.name ++ f.extension ++ ": " ++ errMessage e] },
         c) := by
  have h1 : uploadSingleImage c f skip env
      = ({ success := false, error := some (errMessage e) }, c) := by
    rcases hraise with ⟨hskip, hq⟩ | ⟨hi, hcase⟩
    · subst hskip
      simp [uploadSingleImage, hq]
    · rcases hcase with hskip | ⟨hq, hnp⟩
      · subst hskip
        simp [uploadSingleImage, hi]
      · cases skip with
        | false => simp [uploadSingleImage, hi]
        | true =>
          have hnf : ¬ 0 < (fetchObjectsByPath c f.path).length := by
            rw [fetchObjectsByPath_pos_iff]
            push_neg
            exact hnp
          simp [uploadSingleImage, hq, hnf, hi]
  refine ⟨h1, ?_⟩
  unfold uploadBatchStep
  dsimp only
  rw [h1]
  simp [hmsg]

/-- Witness for C5 (amended): a failing insert with message `boom` is
recorded as one failure with the formatted message. -/
theorem item_error_recorded_failed_witness :
    uploadSingleImage [] ⟨"a", "/photos/a.jpg", 3, ".jpg", "QUJD", none⟩ false
        ⟨none, some (some "boom")⟩
      = ({ success := false, error := some "boom" }, [])
    ∧ uploadBatchStep false (⟨0, 0, 0, []⟩, [])
        (⟨"a", "/photos/a.jpg", 3, ".jpg", "QUJD", none⟩, ⟨none, some (some "boom")⟩)
      = ({ success := 0, failed := 1, skipped := 0, errors := ["a.jpg: boom"] }, []) := by
  have h := item_error_recorded_failed ⟨0, 0, 0, []⟩ []
    ⟨"a", "/photos/a.jpg", 3, ".jpg", "QUJD", none⟩ ⟨none, some (some "boom")⟩
    false (some "boom") (Or.inr ⟨rfl, Or.inl rfl⟩) (by decide)
  exact h

/-- C6: for a search call with a location string: a geocoder hit puts a
geographic filter of radius `radiusKm * 1000` meters centered at the
returned pair on the issued query; a geocoder miss logs the warning, issues
the query without any geographic filter, and the call still returns the
backend's results (the search does not fail merely because geocoding found
nothing). -/
theorem searchImages_location_filter (q : String) (limit : Nat) (l : String)
    (radius : Rat)
    (backend : NearTextQuery → Except (Option String) (List RawObject)) :
    (∀ la lo,
      (searchImages q limit (some l) radius (some (la, lo)) backend).issued.filters
        = some { latitude := la, longitude := lo, distance := radius * 1000 })
    ∧ (searchImages q limit (some l) radius none backend).issued.filters = none
    ∧ (searchImages q limit (some l) radius none backend).warnings
        = ["Could not geocode location \"" ++ l ++ "\", proceeding without location filter"]
    ∧ (∀ objs,
        backend { query := q, limit := limit, certainty := 1/2, filters := none }
          = .ok objs →
        (searchImages q limit (some l) radius none backend).result
          = .ok (objs.map fun o =>
              { title := o.title, url := o.url, extension := o.extension
              , coordinates := o.coordinates, score := o.certainty })) := by
  refine ⟨?_, ?_, ?_, ?_⟩
  · intro la lo
    unfold searchImages
    dsimp only
    cases hb : backend { query := q, limit := limit, certainty := 1/2, filters := some { latitude := la, longitude := lo, distance := radius * 1000 } } <;>
      rfl
  · unfold searchImages
    dsimp only
    cases hb : backend { query := q, limit := limit, certainty := 1/2, filters := none } <;>
      rfl
  · unfold searchImages
    dsimp only
    cases hb : backend { query := q, limit := limit, certainty := 1/2, filters := none } <;>
      rfl
  · intro objs hb
    unfold searchImages
    dsimp only
    rw [hb]

/-- Witness for C6: with geocoding returning `(1, 2)` and radius 10 km the
issued query carries a 10 000 m filter at `(1, 2)`; with geocoding returning
nothing the query carries no filter, the warning is logged, and an
empty-store backend still answers. -/
theorem searchImages_location_filter_witness :
    (searchImages "sunset" 5 (some "Paris") 10 (some (1, 2))
        (fun _ => .ok [])).issued.filters
      = some { latitude := 1, longitude := 2, distance := 10 * 1000 }
    ∧ (searchImages "sunset" 5 (some "Paris") 10 none
        (fun _ => .ok [])).issued.filters = none
    ∧ (searchImages "sunset" 5 (some "Paris") 10 none
        (fun _ => .ok [])).warnings
      = ["Could not geocode location \"Paris\", proceeding without location filter"]
    ∧ (searchImages "sunset" 5 (some "Paris") 10 none
        (fun _ => .ok [])).result = .ok [] := by
  have h := searchImages_location_filter "sunset" 5 "Paris" 10 (fun _ => .ok [])
  refine ⟨h.1 1 2, h.2.1, h.2.2.1, ?_⟩
  have h4 := h.2.2.2 [] rfl
  simpa using h4

/-- C7: the `search_photo_albums` handler is a total function of the search
outcome (its body is a single try/catch, so nothing escapes the protocol
boundary): zero results yield the fixed no-photos text with no error flag,
and a raising search yields an `isError` response whose text embeds the
failure description. -/
theorem handleSearchPhotoAlbums_boundary (query : String)
    (outcome : Except (Option String) (List SearchResult)) :
    (outcome = .ok [] →
      handleSearchPhotoAlbums query outcome
        = { content := [{ type := "text",
                          text := "No photos found matching \"" ++ query ++
                            "\". Try a different search term or check if photos have been uploaded to the collection." }],
            isError := none })
    ∧ (∀ e, outcome = .error e →
        handleSearchPhotoAlbums query outcome
          = { content := [{ type := "text",
                            text := "Error searching photo albums: " ++ errMessage e ++
                              ". Please check your Weaviate connection and try again." }],
              isError := some true }) := by
  constructor
  · intro h
    subst h
    rfl
  · intro e h
    subst h
    rfl

/-- Witness for C7: concrete zero-result and raising outcomes. -/
theorem handleSearchPhotoAlbums_boundary_witness :
    handleSearchPhotoAlbums "sunset" (.ok [])
      = { content := [{ type := "text",
                        text := "No photos found matching \"sunset\". Try a different search term or check if photos have been uploaded to the collection." }],
          isError := none }
    ∧ handleSearchPhotoAlbums "sunset" (.error (some "boom"))
      = { content := [{ type := "text",
                        text := "Error searching photo albums: boom. Please check your Weaviate connection and try again." }],
          isError := some true } :=
  ⟨(handleSearchPhotoAlbums_boundary "sunset" (.ok [])).1 rfl,
   (handleSearchPhotoAlbums_boundary "sunset" (.error (some "boom"))).2 (some "boom") rfl⟩

/-- An element surviving two filters and a truncation passed the first
filter. -/
theorem mem_take_filter_fst {α : Type} (p1 p2 : α → Bool) (n : Nat)
    (l : List α) (o : α)
    (ho : o ∈ ((l.filter p1).filter p2).take n) : p1 o = true := by
  have h1 := List.mem_of_mem_take ho
  exact (List.mem_filter.mp (List.mem_filter.mp h1).1).2

/-- Passing the certainty filter of the modelled backend means the object
reports a certainty at least the threshold. -/
theorem certainty_filter_spec (th : Rat) (o : RawObject)
    (h : (match o.certainty with
          | some c => decide (th ≤ c)
          | none => false) = true) :
    ∃ c, o.certainty = some c ∧ th ≤ c := by
  cases hc : o.certainty with
  | none => rw [hc] at h; simp at h
  | some c =>
    rw [hc] at h
    simp at h
    exact ⟨c, rfl, h⟩

/-- C9: every similarity query issued by `searchImages`, with or without a
geographic filter, carries the certainty threshold 0.5; hence, under the
vector store's `nearText` semantics, every returned result has a reported
certainty of at least 0.5, and fewer than `limit` results can come back even
from a store holding at least `limit` objects. -/
theorem searchImages_certainty_threshold (q : String) (limit : Nat)
    (location : Option String) (radius : Rat) (geo : Option (Rat × Rat))
    (inRange : GeoFilter → Option Coordinates → Bool) (store : List RawObject) :
    (∀ backend, (searchImages q limit location radius geo backend).issued.certainty = 1/2)
    ∧ (∀ res,
        (searchImages q limit location radius geo
            (nearTextBackend inRange store)).result = .ok res →
        ∀ r ∈ res, ∃ c, r.score = some c ∧ (1 : Rat)/2 ≤ c)
    ∧ ((searchImages "sunset" 2 none 10 none
          (nearTextBackend (fun _ _ => true)
            [⟨"p", "u", ".jpg", none, some 0⟩,
             ⟨"v", "w", ".jpg", none, some 0⟩])).result = .ok []
       ∧ ([⟨"p", "u", ".jpg", none, some 0⟩,
           (⟨"v", "w", ".jpg", none, some 0⟩ : RawObject)] : List RawObject).length = 2) := by
  refine ⟨?_, ?_, ?_, ?_⟩
  · intro backend
    rcases location with _ | l
    · unfold searchImages
      dsimp only
      cases hb : backend { query := q, limit := limit, certainty := 1/2, filters := none } <;>
        rfl
    · rcases geo with _ | ⟨la, lo⟩
      · unfold searchImages
        dsimp only
        cases hb : backend { query := q, limit := limit, certainty := 1/2, filters := none } <;>
          rfl
      · unfold searchImages
        dsimp only
        cases hb : backend { query := q, limit := limit, certainty := 1/2, filters := some { latitude := la, longitude := lo, distance := radius * 1000 } } <;>
          rfl
  · intro res hres r hr
    rcases location with _ | l
    · unfold searchImages nearTextBackend at hres
      dsimp only at hres
      simp only [Except.ok.injEq] at hres
      rw [← hres] at hr
      simp only [List.mem_map] at hr
      obtain ⟨o, ho, rfl⟩ := hr
      have hp := mem_take_filter_fst _ _ _ _ o ho
      obtain ⟨c, hc, hle⟩ := certainty_filter_spec _ o hp
      exact ⟨c, hc, hle⟩
    · rcases geo with _ | ⟨la, lo⟩
      · unfold searchImages nearTextBackend at hres
        dsimp only at hres
        simp only [Except.ok.injEq] at hres
        rw [← hres] at hr
        simp only [List.mem_map] at hr
        obtain ⟨o, ho, rfl⟩ := hr
        have hp := mem_take_filter_fst _ _ _ _ o ho
        obtain ⟨c, hc, hle⟩ := certainty_filter_spec _ o hp
        exact ⟨c, hc, hle⟩
      · unfold searchImages nearTextBackend at hres
        dsimp only at hres
        simp only [Except.ok.injEq] at hres
        rw [← hres] at hr
        simp only [List.mem_map] at hr
        obtain ⟨o, ho, rfl⟩ := hr
        have hp := mem_take_filter_fst _ _ _ _ o ho
        obtain ⟨c, hc, hle⟩ := certainty_filter_spec _ o hp
        exact ⟨c, hc, hle⟩
  · unfold searchImages nearTextBackend
    norm_num [List.filter_cons, List.filter_nil]
  · rfl

/-- Witness for C9: on a one-object store with certainty 1 the search
returns the object, whose score meets the threshold. -/
theorem searchImages_certainty_threshold_witness :
    (searchImages "x" 1 none 10 none
        (nearTextBackend (fun _ _ => true)
          [⟨"p", "u", ".jpg", none, some 1⟩])).issued.certainty = 1/2
    ∧ ∃ c,
        ({ title := "p", url := "u", extension := ".jpg", coordinates := none
         , score := some 1 } : SearchResult).score = some c ∧ (1 : Rat)/2 ≤ c := by
  have h := searchImages_certainty_threshold "x" 1 none 10 none (fun _ _ => true)
    [⟨"p", "u", ".jpg", none, some 1⟩]
  refine ⟨h.1 _, ?_⟩
  exact h.2.1
    [{ title := "p", url := "u", extension := ".jpg", coordinates := none, score := some 1 }]
    (by unfold searchImages nearTextBackend
        norm_num [List.filter_cons, List.filter_nil])
    { title := "p", url := "u", extension := ".jpg", coordinates := none, score := some 1 }
    (by simp)

end MultimodalMCP
